import Mathlib

/-!
Shallow embedding of `src/book_fetcher.py` (the `book-fetcher` repository).

The repository defines pydantic models `Book` and `OpenLibraryResponse`,
a `JsonFormatter`, and a `BookFetcher` with `fetch_books` (HTTP fetch and
validate) and `filter_books` (pure filtering).  Python strings are modelled
as Lean `String`, Python `int` as `Int` (arbitrary precision in both),
`None`-able values as `Option`, and JSON values as an inductive `Json` tree.
`str.lower()` is modelled as per-character ASCII lowercasing
(`Char.toLower`), and the substring test `needle in hay` as `containsSub`.
-/

/-- Model of Python `str.lower()`: lowercase every character. -/
def pyLower (s : String) : String := ⟨s.data.map Char.toLower⟩

/-- Model of Python substring containment `needle in hay` on character lists:
true iff `needle` occurs contiguously inside the second argument. -/
def containsSub (needle : List Char) : List Char → Bool
  | [] => needle.isEmpty
  | c :: rest => needle.isPrefixOf (c :: rest) || containsSub needle rest

/-- Python `needle in hay` for strings. -/
def strContains (hay needle : String) : Bool := containsSub needle.data hay.data

/-- The `Book` record (src/book_fetcher.py lines 9-17): field names are the
public (Python attribute) names; aliasing and defaults live in validation. -/
structure Book where
  title : String
  author_names : List String
  first_publish_year : Option Int
  publisher : List String
  language : List String
  number_of_pages : Option Int
  deriving Repr, DecidableEq

/-- `BookFetcher.filter_books` (src/book_fetcher.py lines 70-88).
`title_contains`/`min_year` are the optional keyword arguments; Python's
truthiness test `if title_contains:` is false for `None` and for `""`. -/
def filter_books (books : List Book) (title_contains : Option String)
    (min_year : Option Int) : List Book :=
  let result := books
  let result :=
    match title_contains with
    | some t =>
        if t = "" then result
        else
          let keyword := pyLower t
          result.filter (fun b => strContains (pyLower b.title) keyword)
    | none => result
  let result :=
    match min_year with
    | some y =>
        result.filter (fun b =>
          match b.first_publish_year with
          | some fy => decide (y ≤ fy)
          | none => false)
    | none => result
  result

/-- The predicate the title branch of `filter_books` applies to one book
(src/book_fetcher.py line 80), with the Python truthiness of the argument. -/
def title_pass (t : Option String) (b : Book) : Bool :=
  match t with
  | some s => if s = "" then true else strContains (pyLower b.title) (pyLower s)
  | none => true

/-- The predicate the year branch of `filter_books` applies to one book
(src/book_fetcher.py line 85). -/
def year_pass (y : Option Int) (b : Book) : Bool :=
  match y with
  | some yy =>
      match b.first_publish_year with
      | some fy => decide (yy ≤ fy)
      | none => false
  | none => true

/-- JSON values decoded from an API body.  Numbers are integers (`Int`):
every numeric field the models accept or emit is integer-valued. -/
inductive Json where
  | null
  | bool (b : Bool)
  | num (n : Int)
  | str (s : String)
  | arr (elems : List Json)
  | obj (fields : List (String × Json))
  deriving Repr

/-- Error kinds surfaced by the fetch path: `pydantic.ValidationError` and
`httpx.HTTPStatusError` (src/book_fetcher.py lines 64 and 67). -/
inductive PyError where
  | validationError (msg : String)
  | httpStatusError (status : Nat)
  deriving Repr, DecidableEq

/-- Pydantic field lookup for an aliased field under
`populate_by_name=True`: the alias takes priority, the public field name is
also accepted (src/book_fetcher.py lines 10 and 21). -/
def lookupAliased (fields : List (String × Json)) (al nm : String) :
    Option Json :=
  match List.lookup al fields with
  | some v => some v
  | none => List.lookup nm fields

/-- Validation of a `str` field. -/
def decodeStr : Json → Except PyError String
  | .str s => .ok s
  | _ => .error (.validationError "Input should be a valid string")

/-- Validation of an `int` field. -/
def decodeInt : Json → Except PyError Int
  | .num n => .ok n
  | _ => .error (.validationError "Input should be a valid integer")

/-- Validation of an `int | None` field. -/
def decodeOptInt : Json → Except PyError (Option Int)
  | .null => .ok none
  | .num n => .ok (some n)
  | _ => .error (.validationError "Input should be a valid integer")

/-- Validation of the elements of a `list[str]` field. -/
def decodeStrs : List Json → Except PyError (List String)
  | [] => .ok []
  | x :: xs => do
      let s ← decodeStr x
      let rest ← decodeStrs xs
      .ok (s :: rest)

/-- Validation of a `list[str]` field. -/
def decodeStrList : Json → Except PyError (List String)
  | .arr xs => decodeStrs xs
  | _ => .error (.validationError "Input should be a valid list")

/-- Validation of `Book.title`: `title: str`, required, no default. -/
def field_title (fields : List (String × Json)) : Except PyError String :=
  match List.lookup "title" fields with
  | some v => decodeStr v
  | none => .error (.validationError "title: Field required")

/-- Validation of `Book.author_names`: alias `author_name`, default `[]`. -/
def field_author_names (fields : List (String × Json)) :
    Except PyError (List String) :=
  match lookupAliased fields "author_name" "author_names" with
  | some v => decodeStrList v
  | none => .ok []

/-- Validation of `Book.first_publish_year`: `int | None = None`. -/
def field_first_publish_year (fields : List (String × Json)) :
    Except PyError (Option Int) :=
  match List.lookup "first_publish_year" fields with
  | some v => decodeOptInt v
  | none => .ok none

/-- Validation of `Book.publisher`: `list[str]`, default `[]`. -/
def field_publisher (fields : List (String × Json)) :
    Except PyError (List String) :=
  match List.lookup "publisher" fields with
  | some v => decodeStrList v
  | none => .ok []

/-- Validation of `Book.language`: `list[str]`, default `[]`. -/
def field_language (fields : List (String × Json)) :
    Except PyError (List String) :=
  match List.lookup "language" fields with
  | some v => decodeStrList v
  | none => .ok []

/-- Validation of `Book.number_of_pages`: alias `number_of_pages_median`,
default `None`. -/
def field_number_of_pages (fields : List (String × Json)) :
    Except PyError (Option Int) :=
  match lookupAliased fields "number_of_pages_median" "number_of_pages" with
  | some v => decodeOptInt v
  | none => .ok none

/-- `Book.model_validate` (pydantic validation of the model at
src/book_fetcher.py lines 9-17): each field is validated as declared;
unknown keys are ignored; a non-mapping input is rejected. -/
def Book.model_validate (j : Json) : Except PyError Book :=
  match j with
  | .obj fields => do
      let t ← field_title fields
      let a ← field_author_names fields
      let y ← field_first_publish_year fields
      let p ← field_publisher fields
      let l ← field_language fields
      let n ← field_number_of_pages fields
      .ok ⟨t, a, y, p, l, n⟩
  | _ => .error (.validationError "Input should be a valid dictionary")

/-- Validation of each element of `docs: list[Book]`. -/
def decodeBooks : List Json → Except PyError (List Book)
  | [] => .ok []
  | x :: xs => do
      let b ← Book.model_validate x
      let rest ← decodeBooks xs
      .ok (b :: rest)

/-- The envelope model (src/book_fetcher.py lines 20-24). -/
structure OpenLibraryResponse where
  num_found : Int
  docs : List Book
  deriving Repr, DecidableEq

/-- Validation of `num_found`: alias `numFound`, required, no default. -/
def field_num_found (fields : List (String × Json)) : Except PyError Int :=
  match lookupAliased fields "numFound" "num_found" with
  | some v => decodeInt v
  | none => .error (.validationError "numFound: Field required")

/-- Validation of `docs`: `list[Book]`, required, no default. -/
def field_docs (fields : List (String × Json)) : Except PyError (List Book) :=
  match List.lookup "docs" fields with
  | some (.arr xs) => decodeBooks xs
  | some _ => .error (.validationError "docs: Input should be a valid list")
  | none => .error (.validationError "docs: Field required")

/-- `OpenLibraryResponse.model_validate` (pydantic validation of the model
at src/book_fetcher.py lines 20-24), fields in declaration order. -/
def OpenLibraryResponse.model_validate (j : Json) :
    Except PyError OpenLibraryResponse :=
  match j with
  | .obj fields => do
      let nf ← field_num_found fields
      let ds ← field_docs fields
      .ok ⟨nf, ds⟩
  | _ => .error (.validationError "Input should be a valid dictionary")

/-- Serialization of an `int | None` field value to JSON. -/
def optIntJson : Option Int → Json
  | some n => .num n
  | none => .null

/-- `book.model_dump(by_alias=False)` (src/book_fetcher.py line 46): a
mapping keyed by the public field names in declaration order. -/
def Book.model_dump (b : Book) : Json :=
  .obj [("title", .str b.title),
    ("author_names", .arr (b.author_names.map .str)),
    ("first_publish_year", optIntJson b.first_publish_year),
    ("publisher", .arr (b.publisher.map .str)),
    ("language", .arr (b.language.map .str)),
    ("number_of_pages", optIntJson b.number_of_pages)]

/-- `JsonFormatter.format` (src/book_fetcher.py lines 45-47), modelled at
the JSON-tree level: the emitted text is represented by its parse tree.
`json.dumps` and `json.loads` (Python standard library, outside this
repository) are mutually inverse on such trees; `indent` only changes
whitespace and `ensure_ascii=False` only suppresses escaping, neither
changes the parse tree. -/
def JsonFormatter.format (books : List Book) : Json :=
  .arr (books.map Book.model_dump)

/-- An HTTP response as `fetch_books` observes it: a status code and the
JSON body `response.json()` would decode. -/
structure HttpResponse where
  status : Nat
  body : Json

/-- `BookFetcher.fetch_books` after the transport step (src/book_fetcher.py
lines 59-68): `response.raise_for_status()` raises `httpx.HTTPStatusError`
unless the status is a 2xx success, otherwise the body is validated as an
`OpenLibraryResponse` and `parsed.docs` is returned. -/
def fetch_books (resp : HttpResponse) : Except PyError (List Book) :=
  if 200 ≤ resp.status ∧ resp.status < 300 then
    match OpenLibraryResponse.model_validate resp.body with
    | .ok parsed => .ok parsed.docs
    | .error e => .error e
  else .error (.httpStatusError resp.status)

/-- Input keys consulted by `Book` validation: the public names ("title",
"author_names", "first_publish_year", "publisher", "language",
"number_of_pages") together with the two aliases. -/
def bookInputKeys : List String :=
  ["title", "author_name", "author_names", "first_publish_year",
    "publisher", "language", "number_of_pages_median", "number_of_pages"]

/-- The public field names of `Book`, in declaration order. -/
def publicBookKeys : List String :=
  ["title", "author_names", "first_publish_year", "publisher", "language",
    "number_of_pages"]

/-- Keys of a JSON mapping (empty for non-mappings). -/
def objKeys : Json → List String
  | .obj fs => fs.map Prod.fst
  | _ => []

/-- Key lookup in a JSON mapping (`none` for non-mappings). -/
def objLookup : Json → String → Option Json
  | .obj fs, k => List.lookup k fs
  | _, _ => none

theorem containsSub_iff_infix (n h : List Char) :
    containsSub n h = true ↔ List.IsInfix n h := by
  induction h with
  | nil =>
      simp [containsSub, List.isEmpty_iff, List.infix_nil]
  | cons c rest ih =>
      simp [containsSub, ih, List.infix_cons_iff, List.isPrefixOf_iff_prefix]

theorem filter_books_eq_filter (books : List Book) (t : Option String)
    (y : Option Int) :
    filter_books books t y =
      books.filter (fun b => title_pass t b && year_pass y b) := by
  rcases t with _ | s
  · rcases y with _ | yy
    · simp [filter_books, title_pass, year_pass]
    · simp [filter_books, title_pass, year_pass]
  · by_cases hs : s = ""
    · subst hs
      rcases y with _ | yy
      · simp [filter_books, title_pass, year_pass]
      · simp [filter_books, title_pass, year_pass]
    · rcases y with _ | yy
      · simp [filter_books, title_pass, year_pass, hs]
      · simp [filter_books, title_pass, year_pass, hs, List.filter_filter,
          Bool.and_comm]

/-- C1: for a non-empty query, `filter_books` keeps exactly the books whose
lowercased title contains the lowercased query as a contiguous substring,
and filtering by "Python" and by "PYTHON" gives identical results. -/
theorem filter_title_case_insensitive (books : List Book) (q : String)
    (hq : q ≠ "") :
    (∀ b, b ∈ filter_books books (some q) none ↔
        b ∈ books ∧ List.IsInfix (pyLower q).data (pyLower b.title).data)
    ∧ filter_books books (some "Python") none =
        filter_books books (some "PYTHON") none := by
  constructor
  · intro b
    simp [filter_books, hq, List.mem_filter, strContains, containsSub_iff_infix]
  · have h : pyLower "Python" = pyLower "PYTHON" := by decide
    simp [filter_books, h]

theorem filter_title_case_insensitive_witness :
    ("Py" : String) ≠ "" ∧
      (Book.mk "My Python Book" [] none [] [] none ∈
        filter_books [Book.mk "My Python Book" [] none [] [] none]
          (some "Py") none ↔
        Book.mk "My Python Book" [] none [] [] none ∈
            [Book.mk "My Python Book" [] none [] [] none] ∧
          List.IsInfix (pyLower "Py").data
            (pyLower (Book.mk "My Python Book" [] none [] [] none).title).data) :=
  ⟨by decide,
    (filter_title_case_insensitive
      [Book.mk "My Python Book" [] none [] [] none] "Py" (by decide)).1
      (Book.mk "My Python Book" [] none [] [] none)⟩

/-- C2: with `min_year` supplied, `filter_books` keeps exactly the books
whose publish year is present and at least `min_year`; a book with year
equal to `min_year` is kept, a book with unknown year is dropped, and with
no `min_year` books with unknown year are kept. -/
theorem filter_min_year_boundary (books : List Book) (y : Int) :
    (∀ b, b ∈ filter_books books none (some y) ↔
        b ∈ books ∧ ∃ fy, b.first_publish_year = some fy ∧ y ≤ fy)
    ∧ (∀ b, b ∈ books → b.first_publish_year = some y →
        b ∈ filter_books books none (some y))
    ∧ (∀ b, b.first_publish_year = none →
        b ∉ filter_books books none (some y))
    ∧ filter_books books none none = books := by
  refine ⟨?_, ?_, ?_, rfl⟩
  · intro b
    simp only [filter_books, List.mem_filter]
    constructor
    · rintro ⟨hb, hp⟩
      refine ⟨hb, ?_⟩
      rcases hfy : b.first_publish_year with _ | fy
      · rw [hfy] at hp; simp at hp
      · rw [hfy] at hp; simp at hp; exact ⟨fy, rfl, hp⟩
    · rintro ⟨hb, fy, hfy, hle⟩
      exact ⟨hb, by simp [hfy, hle]⟩
  · intro b hb hy
    simp [filter_books, List.mem_filter, hb, hy]
  · intro b hy
    simp [filter_books, List.mem_filter, hy]

theorem filter_min_year_boundary_witness :
    (Book.mk "A" [] (some 2010) [] [] none ∈
        filter_books [Book.mk "A" [] (some 2010) [] [] none,
          Book.mk "B" [] none [] [] none] none (some 2010))
    ∧ (Book.mk "B" [] none [] [] none ∉
        filter_books [Book.mk "A" [] (some 2010) [] [] none,
          Book.mk "B" [] none [] [] none] none (some 2010)) :=
  ⟨(filter_min_year_boundary
      [Book.mk "A" [] (some 2010) [] [] none,
        Book.mk "B" [] none [] [] none] 2010).2.1
      (Book.mk "A" [] (some 2010) [] [] none) (by decide) rfl,
    (filter_min_year_boundary
      [Book.mk "A" [] (some 2010) [] [] none,
        Book.mk "B" [] none [] [] none] 2010).2.2.1
      (Book.mk "B" [] none [] [] none) rfl⟩

/-- C3: when both arguments are supplied the two filters compose by logical
AND, and on the spec's three-book scenario `filter_books` with
titleContains="python", minYear=2010 returns exactly "Python Crash Course". -/
theorem filter_and_composition :
    (∀ (books : List Book) (q : String) (y : Int), q ≠ "" →
      filter_books books (some q) (some y) =
        books.filter (fun b =>
          strContains (pyLower b.title) (pyLower q) && year_pass (some y) b))
    ∧ filter_books
        [Book.mk "Python Crash Course" [] (some 2015) [] [] none,
          Book.mk "Learning Go" [] (some 2009) [] [] none,
          Book.mk "Python Tricks" [] (some 2005) [] [] none]
        (some "python") (some 2010) =
        [Book.mk "Python Crash Course" [] (some 2015) [] [] none] := by
  constructor
  · intro books q y hq
    rw [filter_books_eq_filter]
    simp [title_pass, hq]
  · decide

/-- C4: filtering with no criteria supplied returns the input list
unchanged, elements and order included. -/
theorem filter_no_criteria_identity (books : List Book) :
    filter_books books none none = books := rfl

/-- C5: `filter_books` is idempotent: applying it twice with the same
arguments equals applying it once. -/
theorem filter_idempotent (books : List Book) (t : Option String)
    (y : Option Int) :
    filter_books (filter_books books t y) t y = filter_books books t y := by
  simp [filter_books_eq_filter, List.filter_filter]

theorem except_bind_ok {α β : Type} (a : α) (f : α → Except PyError β) :
    (Except.ok a >>= f) = f a := rfl

theorem except_bind_error {α β : Type} (e : PyError)
    (f : α → Except PyError β) :
    ((Except.error e : Except PyError α) >>= f) = Except.error e := rfl

theorem book_validate_obj_iff (fields : List (String × Json)) (b : Book) :
    Book.model_validate (.obj fields) = .ok b ↔
      field_title fields = .ok b.title
      ∧ field_author_names fields = .ok b.author_names
      ∧ field_first_publish_year fields = .ok b.first_publish_year
      ∧ field_publisher fields = .ok b.publisher
      ∧ field_language fields = .ok b.language
      ∧ field_number_of_pages fields = .ok b.number_of_pages := by
  constructor
  · intro h
    simp only [Book.model_validate] at h
    rcases h1 : field_title fields with e | t
    · rw [h1, except_bind_error] at h; cases h
    rw [h1, except_bind_ok] at h
    rcases h2 : field_author_names fields with e | a
    · rw [h2, except_bind_error] at h; cases h
    rw [h2, except_bind_ok] at h
    rcases h3 : field_first_publish_year fields with e | y
    · rw [h3, except_bind_error] at h; cases h
    rw [h3, except_bind_ok] at h
    rcases h4 : field_publisher fields with e | p
    · rw [h4, except_bind_error] at h; cases h
    rw [h4, except_bind_ok] at h
    rcases h5 : field_language fields with e | l
    · rw [h5, except_bind_error] at h; cases h
    rw [h5, except_bind_ok] at h
    rcases h6 : field_number_of_pages fields with e | n
    · rw [h6, except_bind_error] at h; cases h
    rw [h6, except_bind_ok] at h
    injection h with h
    subst h
    exact ⟨rfl, rfl, rfl, rfl, rfl, rfl⟩
  · rintro ⟨h1, h2, h3, h4, h5, h6⟩
    simp only [Book.model_validate, h1, h2, h3, h4, h5, h6, except_bind_ok]

theorem envelope_validate_obj_iff (fields : List (String × Json))
    (r : OpenLibraryResponse) :
    OpenLibraryResponse.model_validate (.obj fields) = .ok r ↔
      field_num_found fields = .ok r.num_found
      ∧ field_docs fields = .ok r.docs := by
  constructor
  · intro h
    simp only [OpenLibraryResponse.model_validate] at h
    rcases h1 : field_num_found fields with e | nf
    · rw [h1, except_bind_error] at h; cases h
    rw [h1, except_bind_ok] at h
    rcases h2 : field_docs fields with e | ds
    · rw [h2, except_bind_error] at h; cases h
    rw [h2, except_bind_ok] at h
    injection h with h
    subst h
    exact ⟨rfl, rfl⟩
  · rintro ⟨h1, h2⟩
    simp only [OpenLibraryResponse.model_validate, h1, h2, except_bind_ok]

theorem decodeStrs_map_str (ss : List String) :
    decodeStrs (ss.map Json.str) = .ok ss := by
  induction ss with
  | nil => rfl
  | cons s rest ih =>
      simp [decodeStrs, decodeStr, ih, except_bind_ok]

theorem decodeOptInt_optIntJson (o : Option Int) :
    decodeOptInt (optIntJson o) = .ok o := by
  cases o <;> rfl

theorem lookup_append_single (key k : String) (v : Json)
    (l : List (String × Json)) (h : key ≠ k) :
    List.lookup key (l ++ [(k, v)]) = List.lookup key l := by
  induction l with
  | nil =>
      simp only [List.nil_append, List.lookup]
      rw [show (key == k) = false from beq_eq_false_iff_ne.mpr h]
  | cons p rest ih =>
      cases p
      simp only [List.cons_append, List.lookup]
      split
      · rfl
      · exact ih

theorem book_validate_append_unknown (fields : List (String × Json))
    (k : String) (v : Json) (hk : k ∉ bookInputKeys) :
    Book.model_validate (.obj (fields ++ [(k, v)])) =
      Book.model_validate (.obj fields) := by
  simp only [bookInputKeys, List.mem_cons, List.not_mem_nil, or_false,
    not_or] at hk
  obtain ⟨k1, k2, k3, k4, k5, k6, k7, k8⟩ := hk
  have ht : field_title (fields ++ [(k, v)]) = field_title fields := by
    unfold field_title
    rw [lookup_append_single _ _ _ _ (Ne.symm k1)]
  have ha : field_author_names (fields ++ [(k, v)]) =
      field_author_names fields := by
    unfold field_author_names lookupAliased
    rw [lookup_append_single _ _ _ _ (Ne.symm k2),
      lookup_append_single _ _ _ _ (Ne.symm k3)]
  have hy : field_first_publish_year (fields ++ [(k, v)]) =
      field_first_publish_year fields := by
    unfold field_first_publish_year
    rw [lookup_append_single _ _ _ _ (Ne.symm k4)]
  have hp : field_publisher (fields ++ [(k, v)]) = field_publisher fields := by
    unfold field_publisher
    rw [lookup_append_single _ _ _ _ (Ne.symm k5)]
  have hl : field_language (fields ++ [(k, v)]) = field_language fields := by
    unfold field_language
    rw [lookup_append_single _ _ _ _ (Ne.symm k6)]
  have hn : field_number_of_pages (fields ++ [(k, v)]) =
      field_number_of_pages fields := by
    unfold field_number_of_pages lookupAliased
    rw [lookup_append_single _ _ _ _ (Ne.symm k7),
      lookup_append_single _ _ _ _ (Ne.symm k8)]
  simp only [Book.model_validate, ht, ha, hy, hp, hl, hn]

theorem model_validate_model_dump (b : Book) :
    Book.model_validate (Book.model_dump b) = .ok b := by
  cases b with
  | mk t a y p l n =>
      exact (book_validate_obj_iff _ _).mpr
        ⟨rfl, decodeStrs_map_str a, decodeOptInt_optIntJson y,
          decodeStrs_map_str p, decodeStrs_map_str l,
          decodeOptInt_optIntJson n⟩

/-- C6: validated records obey the aliasing and default rules: key
`author_name` populates `author_names`, key `number_of_pages_median`
populates `number_of_pages`, the other fields map by their own name, every
sequence field defaults to `[]` and both optional scalars default to `none`
when the source key is missing, and an unknown key changes nothing. -/
theorem book_aliasing_and_defaults :
    (∀ (fields : List (String × Json)) (b : Book),
      Book.model_validate (.obj fields) = .ok b →
        (List.lookup "author_name" fields = none →
            List.lookup "author_names" fields = none → b.author_names = [])
        ∧ (List.lookup "publisher" fields = none → b.publisher = [])
        ∧ (List.lookup "language" fields = none → b.language = [])
        ∧ (List.lookup "first_publish_year" fields = none →
            b.first_publish_year = none)
        ∧ (List.lookup "number_of_pages_median" fields = none →
            List.lookup "number_of_pages" fields = none →
            b.number_of_pages = none)
        ∧ (∀ ss, List.lookup "author_name" fields =
            some (.arr (ss.map .str)) → b.author_names = ss)
        ∧ (∀ n, List.lookup "number_of_pages_median" fields =
            some (.num n) → b.number_of_pages = some n)
        ∧ (∀ ss, List.lookup "publisher" fields =
            some (.arr (ss.map .str)) → b.publisher = ss)
        ∧ (∀ n, List.lookup "first_publish_year" fields =
            some (.num n) → b.first_publish_year = some n))
    ∧ (∀ (fields : List (String × Json)) (k : String) (v : Json),
        k ∉ bookInputKeys →
        Book.model_validate (.obj (fields ++ [(k, v)])) =
          Book.model_validate (.obj fields)) := by
  constructor
  · intro fields b h
    rw [book_validate_obj_iff] at h
    obtain ⟨h1, h2, h3, h4, h5, h6⟩ := h
    refine ⟨?_, ?_, ?_, ?_, ?_, ?_, ?_, ?_, ?_⟩
    · intro ha han
      simp only [field_author_names, lookupAliased, ha, han,
        Except.ok.injEq] at h2
      exact h2.symm
    · intro hp
      simp only [field_publisher, hp, Except.ok.injEq] at h4
      exact h4.symm
    · intro hl
      simp only [field_language, hl, Except.ok.injEq] at h5
      exact h5.symm
    · intro hy
      simp only [field_first_publish_year, hy, Except.ok.injEq] at h3
      exact h3.symm
    · intro hm hn
      simp only [field_number_of_pages, lookupAliased, hm, hn,
        Except.ok.injEq] at h6
      exact h6.symm
    · intro ss ha
      simp only [field_author_names, lookupAliased, ha, decodeStrList,
        decodeStrs_map_str, Except.ok.injEq] at h2
      exact h2.symm
    · intro n hm
      simp only [field_number_of_pages, lookupAliased, hm, decodeOptInt,
        Except.ok.injEq] at h6
      exact h6.symm
    · intro ss hp
      simp only [field_publisher, hp, decodeStrList, decodeStrs_map_str,
        Except.ok.injEq] at h4
      exact h4.symm
    · intro n hy
      simp only [field_first_publish_year, hy, decodeOptInt,
        Except.ok.injEq] at h3
      exact h3.symm
  · intro fields k v hk
    exact book_validate_append_unknown fields k v hk

theorem book_aliasing_and_defaults_witness :
    (Book.mk "T" ["A"] none [] [] none).author_names = ["A"]
    ∧ Book.model_validate
        (.obj ([("title", Json.str "T")] ++ [("zzz", Json.num 1)])) =
      Book.model_validate (.obj [("title", Json.str "T")]) :=
  ⟨(book_aliasing_and_defaults.1
      [("title", Json.str "T"), ("author_name", Json.arr [Json.str "A"])]
      (Book.mk "T" ["A"] none [] [] none) rfl).2.2.2.2.2.1 ["A"] rfl,
    book_aliasing_and_defaults.2 [("title", Json.str "T")] "zzz"
      (Json.num 1) (by decide)⟩

/-- C7: the formatted output is a JSON array with one mapping per record in
input order; each mapping's keys are exactly the public field names in
declaration order, each key holds the record's field value, and validating
a dumped mapping back recovers the record exactly. -/
theorem json_format_roundtrip (books : List Book) :
    JsonFormatter.format books = .arr (books.map Book.model_dump)
    ∧ (∀ b : Book, objKeys (Book.model_dump b) = publicBookKeys
        ∧ objLookup (Book.model_dump b) "title" = some (.str b.title)
        ∧ objLookup (Book.model_dump b) "author_names" =
            some (.arr (b.author_names.map .str))
        ∧ objLookup (Book.model_dump b) "first_publish_year" =
            some (optIntJson b.first_publish_year)
        ∧ objLookup (Book.model_dump b) "publisher" =
            some (.arr (b.publisher.map .str))
        ∧ objLookup (Book.model_dump b) "language" =
            some (.arr (b.language.map .str))
        ∧ objLookup (Book.model_dump b) "number_of_pages" =
            some (optIntJson b.number_of_pages)
        ∧ Book.model_validate (Book.model_dump b) = .ok b) := by
  refine ⟨rfl, fun b => ⟨rfl, rfl, rfl, rfl, rfl, rfl, rfl,
    model_validate_model_dump b⟩⟩

/-- C8: validation fails with the `ValidationError` kind when a required
field is missing or of the wrong shape: a record without a text `title` is
rejected, an envelope without `docs` is rejected, and `fetch_books` on a
success status with such a body fails before returning any record. -/
theorem validation_missing_required :
    (∀ fields : List (String × Json), List.lookup "title" fields = none →
      ∃ msg, Book.model_validate (.obj fields) =
        .error (.validationError msg))
    ∧ (∀ (fields : List (String × Json)) (v : Json),
        List.lookup "title" fields = some v → (∀ s, v ≠ .str s) →
        ∃ msg, Book.model_validate (.obj fields) =
          .error (.validationError msg))
    ∧ (∀ fields : List (String × Json), List.lookup "docs" fields = none →
        ∃ msg, OpenLibraryResponse.model_validate (.obj fields) =
          .error (.validationError msg))
    ∧ (∀ (fields : List (String × Json)) (status : Nat),
        200 ≤ status → status < 300 → List.lookup "docs" fields = none →
        ∃ msg, fetch_books ⟨status, .obj fields⟩ =
          .error (.validationError msg)) := by
  have envelope_no_docs : ∀ fields : List (String × Json),
      List.lookup "docs" fields = none →
      ∃ msg, OpenLibraryResponse.model_validate (.obj fields) =
        .error (.validationError msg) := by
    intro fields hd
    have hdocs : field_docs fields =
        .error (.validationError "docs: Field required") := by
      simp only [field_docs, hd]
    rcases hn : field_num_found fields with e | n
    · have he : ∃ m, e = PyError.validationError m := by
        unfold field_num_found at hn
        rcases hlv : lookupAliased fields "numFound" "num_found" with _ | v
        · rw [hlv] at hn
          injection hn with hn
          exact ⟨_, hn.symm⟩
        · rw [hlv] at hn
          cases v <;> simp only [decodeInt] at hn <;> cases hn <;>
            exact ⟨_, rfl⟩
      obtain ⟨m, hm⟩ := he
      subst hm
      exact ⟨m, by simp only [OpenLibraryResponse.model_validate, hn,
        except_bind_error]⟩
    · exact ⟨"docs: Field required", by
        simp only [OpenLibraryResponse.model_validate, hn, except_bind_ok,
          hdocs, except_bind_error]⟩
  refine ⟨?_, ?_, envelope_no_docs, ?_⟩
  · intro fields ht
    exact ⟨"title: Field required", by
      simp only [Book.model_validate, field_title, ht, except_bind_error]⟩
  · intro fields v hv hns
    have hd : decodeStr v =
        .error (.validationError "Input should be a valid string") := by
      cases v with
      | str s => exact absurd rfl (hns s)
      | null => rfl
      | bool b => rfl
      | num n => rfl
      | arr xs => rfl
      | obj fs => rfl
    exact ⟨"Input should be a valid string", by
      simp only [Book.model_validate, field_title, hv, hd,
        except_bind_error]⟩
  · intro fields status hs1 hs2 hd
    obtain ⟨msg, hm⟩ := envelope_no_docs fields hd
    refine ⟨msg, ?_⟩
    simp only [fetch_books]
    rw [if_pos ⟨hs1, hs2⟩, hm]

theorem validation_missing_required_witness :
    (∃ msg, Book.model_validate (.obj [("author_name", Json.arr [])]) =
        .error (.validationError msg))
    ∧ (∃ msg, Book.model_validate (.obj [("title", Json.num 3)]) =
        .error (.validationError msg))
    ∧ (∃ msg, OpenLibraryResponse.model_validate
          (.obj [("numFound", Json.num 0)]) =
        .error (.validationError msg))
    ∧ (∃ msg, fetch_books ⟨200, .obj [("numFound", Json.num 0)]⟩ =
        .error (.validationError msg)) :=
  ⟨validation_missing_required.1 [("author_name", Json.arr [])] rfl,
    validation_missing_required.2.1 [("title", Json.num 3)] (Json.num 3) rfl
      (fun s => by simp),
    validation_missing_required.2.2.1 [("numFound", Json.num 0)] rfl,
    validation_missing_required.2.2.2 [("numFound", Json.num 0)] 200
      (by decide) (by decide) rfl⟩

/-- C9: a non-success HTTP status makes `fetch_books` fail with the HTTP
error condition carrying that status, and the outcome does not depend on
the response body (the body is never parsed). -/
theorem fetch_http_error (status : Nat) (body : Json)
    (h : ¬ (200 ≤ status ∧ status < 300)) :
    fetch_books ⟨status, body⟩ = .error (.httpStatusError status)
    ∧ ∀ body2 : Json, fetch_books ⟨status, body⟩ =
        fetch_books ⟨status, body2⟩ := by
  constructor
  · simp only [fetch_books]
    rw [if_neg h]
  · intro body2
    simp only [fetch_books]
    rw [if_neg h, if_neg h]

theorem fetch_http_error_witness :
    fetch_books ⟨500, .null⟩ = .error (.httpStatusError 500) :=
  (fetch_http_error 500 .null (by decide)).1

/-- C10: an envelope mapping carrying neither `numFound` nor `num_found`
fails validation with the required-field error even though the count is
never returned to the caller, and `fetch_books` on a success status with
such a body fails before returning any record. -/
theorem envelope_num_found_required (fields : List (String × Json))
    (h1 : List.lookup "numFound" fields = none)
    (h2 : List.lookup "num_found" fields = none) :
    OpenLibraryResponse.model_validate (.obj fields) =
        .error (.validationError "numFound: Field required")
    ∧ fetch_books ⟨200, .obj fields⟩ =
        .error (.validationError "numFound: Field required") := by
  have hf : field_num_found fields =
      .error (.validationError "numFound: Field required") := by
    simp only [field_num_found, lookupAliased, h1, h2]
  have hv : OpenLibraryResponse.model_validate (.obj fields) =
      .error (.validationError "numFound: Field required") := by
    simp only [OpenLibraryResponse.model_validate, hf, except_bind_error]
  refine ⟨hv, ?_⟩
  simp only [fetch_books]
  rw [if_pos (by decide : (200 : Nat) ≤ 200 ∧ (200 : Nat) < 300), hv]

theorem envelope_num_found_required_witness :
    OpenLibraryResponse.model_validate (.obj [("docs", Json.arr [])]) =
        .error (.validationError "numFound: Field required")
    ∧ fetch_books ⟨200, .obj [("docs", Json.arr [])]⟩ =
        .error (.validationError "numFound: Field required") :=
  envelope_num_found_required [("docs", Json.arr [])] rfl rfl

theorem filter_and_composition_witness :
    filter_books [Book.mk "Python Tricks" [] (some 2005) [] [] none]
        (some "py") (some 2000) =
      List.filter (fun b =>
          strContains (pyLower b.title) (pyLower "py")
            && year_pass (some 2000) b)
        [Book.mk "Python Tricks" [] (some 2005) [] [] none] :=
  filter_and_composition.1
    [Book.mk "Python Tricks" [] (some 2005) [] [] none] "py" 2000 (by decide)
